import Mathlib

/-!
Shallow embedding of the Game Boy CPU core of this repository
(src/emulador_gb/src/operations.rs and src/emulador_gb/src/gb.rs).

Conventions of the translation:
* machine integers are Nat with explicit reductions: a u8 wrap-around
  becomes % 256, a u16 wrap-around becomes % 65536, wrapping_sub 1 on a
  u16 becomes + 65535 followed by % 65536, bitwise operators translate
  to the Nat bitwise operators;
* the Rust struct fields of type Option bool are Option Bool, and the
  unwrap calls of the dispatcher become Option.get! (every construction
  site in operations.rs fills all four flag fields with some);
* the mutable methods of the CPU become pure functions returning the new
  state, and a method returning a value becomes a pair;
* the fatal wildcard arm of the dispatcher is modelled by returning none,
  every dispatched arm returns some of the new state and its cycle count.
-/

namespace GB

/-- Result of an 8-bit ALU operation (operations.rs Result). -/
structure Result where
  value : Nat
  zero : Option Bool
  add_sub : Option Bool
  half_carry : Option Bool
  carry : Option Bool
deriving DecidableEq

/-- Result of a 16-bit ALU operation (operations.rs Result16). -/
structure Result16 where
  value : Nat
  zero : Option Bool
  add_sub : Option Bool
  half_carry : Option Bool
  carry : Option Bool
deriving DecidableEq

/-- Half-carry of an 8-bit addition (operations.rs half_carry_sum). -/
def half_carry_sum (a b : Nat) : Bool :=
  ((a &&& 0x0F) + (b &&& 0x0F)) &&& 0x10 == 0x10

/-- Half-borrow of an 8-bit subtraction (operations.rs half_carry_sub). -/
def half_carry_sub (a b : Nat) : Bool :=
  decide ((a &&& 0x0F) < (b &&& 0x0F))

/-- 8-bit addition (operations.rs add). -/
def add (a b : Nat) : Result :=
  let value := (a + b) % 256
  { value := value, zero := some (value == 0), add_sub := some false,
    half_carry := some (half_carry_sum a b), carry := some (decide (a + b > 255)) }

/-- 8-bit addition with carry-in (operations.rs adc).  The half_carry field is
computed from a and b only, exactly as in the source. -/
def adc (a b : Nat) (carry : Bool) : Result :=
  let value1 := (a + b) % 256
  let carry1 := decide (a + b > 255)
  let cin := if carry then 1 else 0
  let value := (value1 + cin) % 256
  let carry2 := decide (value1 + cin > 255)
  { value := value, zero := some (value == 0), add_sub := some false,
    half_carry := some (half_carry_sum a b), carry := some (carry1 || carry2) }

/-- 8-bit subtraction (operations.rs sub). -/
def sub (a b : Nat) : Result :=
  let value := (a + 256 - b % 256) % 256
  { value := value, zero := some (value == 0), add_sub := some true,
    half_carry := some (half_carry_sub a b), carry := some (decide (a < b)) }

/-- 8-bit subtraction with borrow-in (operations.rs sbc).  The half_carry field
is computed from a and b only, exactly as in the source. -/
def sbc (a b : Nat) (carry : Bool) : Result :=
  let cin := if carry then 1 else 0
  let value1 := (a + 256 - b % 256) % 256
  let carry1 := decide (a < b)
  let value := (value1 + 256 - cin) % 256
  let carry2 := decide (value1 < cin)
  { value := value, zero := some (value == 0), add_sub := some true,
    half_carry := some (half_carry_sub a b), carry := some (carry1 || carry2) }

/-- Bitwise and (operations.rs and). -/
def and (a b : Nat) : Result :=
  let value := a &&& b
  { value := value, zero := some (value == 0), add_sub := some false,
    half_carry := some true, carry := some false }

/-- Bitwise or (operations.rs or). -/
def or (a b : Nat) : Result :=
  let value := a ||| b
  { value := value, zero := some (value == 0), add_sub := some false,
    half_carry := some false, carry := some false }

/-- Bitwise xor (operations.rs xor). -/
def xor (a b : Nat) : Result :=
  let value := a ^^^ b
  { value := value, zero := some (value == 0), add_sub := some false,
    half_carry := some false, carry := some false }

/-- Comparison (operations.rs cp). -/
def cp (a b : Nat) : Result :=
  { value := a, zero := some (a == b), add_sub := some true,
    half_carry := some (half_carry_sub a b), carry := some (decide (a < b)) }

/-- Increment (operations.rs inc). -/
def inc (value : Nat) : Result :=
  add value 1

/-- Decrement (operations.rs dec). -/
def dec (value : Nat) : Result :=
  sub value 1

/-- 16-bit addition of an 8-bit offset to SP (operations.rs add_sp).  The
offset is zero-extended and the carry is the 16-bit overflow, exactly as in
the source. -/
def add_sp (value offset : Nat) : Result16 :=
  { value := (value + offset) % 65536,
    zero := some false,
    add_sub := some false,
    half_carry := some (decide ((value &&& 0x0F) + (offset &&& 0x0F) > 0x0F)),
    carry := some (decide (value + offset > 65535)) }

/-- Rotate left circular (operations.rs rlc). -/
def rlc (value : Nat) : Result :=
  let carry := value &&& 0x80 != 0
  let result := ((value <<< 1) % 256) ||| (if carry then 1 else 0)
  { value := result, zero := some (result == 0), add_sub := some false,
    half_carry := some false, carry := some carry }

/-- Rotate right circular (operations.rs rrc). -/
def rrc (value : Nat) : Result :=
  let carry := value &&& 0x01 != 0
  let result := (value >>> 1) ||| (if carry then 0x80 else 0)
  { value := result, zero := some (result == 0), add_sub := some false,
    half_carry := some false, carry := some carry }

/-- Rotate left through the carry flag (operations.rs rl). -/
def rl (value flags : Nat) : Result :=
  let seven := (value >>> 7) &&& 1 != 0
  let carry := (flags &&& 0x10) >>> 4
  let result := ((value <<< 1) % 256) ||| carry
  { value := result, zero := some (result == 0), add_sub := some false,
    half_carry := some false, carry := some seven }

/-- Rotate right through the carry flag (operations.rs rr). -/
def rr (value flags : Nat) : Result :=
  let zero := value &&& 1 != 0
  let carry := (flags &&& 0x10) >>> 4
  let result := (value >>> 1) ||| (carry <<< 7)
  { value := result, zero := some (result == 0), add_sub := some false,
    half_carry := some false, carry := some zero }

/-- Shift left arithmetic (operations.rs sla). -/
def sla (value : Nat) : Result :=
  let carry := value &&& 0x80 != 0
  let result := (value <<< 1) % 256
  { value := result, zero := some (result == 0), add_sub := some false,
    half_carry := some false, carry := some carry }

/-- Shift right arithmetic (operations.rs sra). -/
def sra (value : Nat) : Result :=
  let carry := value &&& 0x80 != 0
  let result := (value >>> 1) ||| (value &&& 0x80)
  { value := result, zero := some (result == 0), add_sub := some false,
    half_carry := some false, carry := some carry }

/-- Register file of the CPU (gb.rs Register). -/
structure Register where
  a : Nat
  b : Nat
  c : Nat
  d : Nat
  e : Nat
  h : Nat
  l : Nat
  f : Nat
  sp : Nat
  pc : Nat
deriving DecidableEq

/-- Post-boot register values (gb.rs Register::new). -/
def Register.new : Register :=
  { a := 0x01, b := 0x00, c := 0x13, d := 0x00, e := 0xD8,
    h := 0x01, l := 0x4D, f := 0xB0, sp := 0xFFFE, pc := 0x0100 }

/-- Flat 64 KiB memory (gb.rs Memory), as a function from address to byte. -/
structure Memory where
  data : Nat → Nat

/-- Zeroed memory (gb.rs Memory::new). -/
def Memory.new : Memory :=
  ⟨fun _ => 0⟩

/-- CPU state (gb.rs CPU). -/
structure CPU where
  registers : Register
  memory : Memory

/-- Fresh CPU in the post-boot state (gb.rs CPU::new). -/
def CPU.new : CPU :=
  { registers := Register.new, memory := Memory.new }

/-- Condition-code flags (gb.rs Flag). -/
inductive Flag where
  | Z
  | N
  | H
  | C
deriving DecidableEq

/-- Bit mask of a flag inside F (gb.rs get_flag_bit). -/
def get_flag_bit : Flag → Nat
  | Flag.Z => 1 <<< 7
  | Flag.N => 1 <<< 6
  | Flag.H => 1 <<< 5
  | Flag.C => 1 <<< 4

/-- Read a flag (gb.rs CPU::get_flag). -/
def get_flag (c : CPU) (flag : Flag) : Bool :=
  c.registers.f &&& get_flag_bit flag != 0

/-- Write a flag (gb.rs CPU::set_flag); clearing uses the u8 complement of the
mask, written 0xFF ^^^ mask. -/
def set_flag (c : CPU) (flag : Flag) (value : Bool) : CPU :=
  if value then
    { c with registers := { c.registers with f := c.registers.f ||| get_flag_bit flag } }
  else
    { c with registers := { c.registers with f := c.registers.f &&& (0xFF ^^^ get_flag_bit flag) } }

/-- Paired accessor AF (gb.rs CPU::get_af). -/
def get_af (c : CPU) : Nat :=
  (c.registers.a <<< 8) ||| c.registers.f

/-- Paired accessor BC (gb.rs CPU::get_bc). -/
def get_bc (c : CPU) : Nat :=
  (c.registers.b <<< 8) ||| c.registers.c

/-- Paired accessor DE (gb.rs CPU::get_de). -/
def get_de (c : CPU) : Nat :=
  (c.registers.d <<< 8) ||| c.registers.e

/-- Paired accessor HL (gb.rs CPU::get_hl). -/
def get_hl (c : CPU) : Nat :=
  (c.registers.h <<< 8) ||| c.registers.l

/-- Paired write to AF (gb.rs CPU::set_af); note the source stores the low byte
into F without masking the low nibble. -/
def set_af (c : CPU) (value : Nat) : CPU :=
  { c with registers := { c.registers with a := (value >>> 8) % 256, f := value % 256 } }

/-- Paired write to BC (gb.rs CPU::set_bc). -/
def set_bc (c : CPU) (value : Nat) : CPU :=
  { c with registers := { c.registers with b := (value >>> 8) % 256, c := value % 256 } }

/-- Paired write to DE (gb.rs CPU::set_de). -/
def set_de (c : CPU) (value : Nat) : CPU :=
  { c with registers := { c.registers with d := (value >>> 8) % 256, e := value % 256 } }

/-- Paired write to HL (gb.rs CPU::set_hl). -/
def set_hl (c : CPU) (value : Nat) : CPU :=
  { c with registers := { c.registers with h := (value >>> 8) % 256, l := value % 256 } }

/-- Translation helper: write register A. -/
def setA (c : CPU) (v : Nat) : CPU :=
  { c with registers := { c.registers with a := v } }

/-- Translation helper: write register B. -/
def setB (c : CPU) (v : Nat) : CPU :=
  { c with registers := { c.registers with b := v } }

/-- Translation helper: write register C. -/
def setC (c : CPU) (v : Nat) : CPU :=
  { c with registers := { c.registers with c := v } }

/-- Translation helper: write register D. -/
def setD (c : CPU) (v : Nat) : CPU :=
  { c with registers := { c.registers with d := v } }

/-- Translation helper: write register E. -/
def setE (c : CPU) (v : Nat) : CPU :=
  { c with registers := { c.registers with e := v } }

/-- Translation helper: write register H. -/
def setH (c : CPU) (v : Nat) : CPU :=
  { c with registers := { c.registers with h := v } }

/-- Translation helper: write register L. -/
def setL (c : CPU) (v : Nat) : CPU :=
  { c with registers := { c.registers with l := v } }

/-- Translation helper: write SP. -/
def setSP (c : CPU) (v : Nat) : CPU :=
  { c with registers := { c.registers with sp := v } }

/-- Translation helper: write PC. -/
def setPC (c : CPU) (v : Nat) : CPU :=
  { c with registers := { c.registers with pc := v } }

/-- Translation helper: write one memory byte. -/
def writeMem (c : CPU) (addr v : Nat) : CPU :=
  { c with memory := ⟨Function.update c.memory.data addr v⟩ }

/-- Fetch the byte at PC and advance PC (gb.rs CPU::next_instruction). -/
def next_instruction (c : CPU) : Nat × CPU :=
  (c.memory.data c.registers.pc, setPC c ((c.registers.pc + 1) % 65536))

/-- Fetch a little-endian word at PC and advance PC by two
(gb.rs CPU::read_word). -/
def read_word (c : CPU) : Nat × CPU :=
  (c.memory.data c.registers.pc |||
     (c.memory.data ((c.registers.pc + 1) % 65536) <<< 8),
   setPC c ((c.registers.pc + 2) % 65536))

/-- Pop a word (gb.rs CPU::pop): reads the bytes at SP and SP+1 but increments
SP only once, exactly as in the source. -/
def pop (c : CPU) : Nat × CPU :=
  (c.memory.data c.registers.sp |||
     (c.memory.data ((c.registers.sp + 1) % 65536) <<< 8),
   setSP c ((c.registers.sp + 1) % 65536))

/-- Push a word (gb.rs CPU::push): pre-decrements SP, writes the high byte,
pre-decrements again, writes the low byte. -/
def push (c : CPU) (value : Nat) : CPU :=
  let c := setSP c ((c.registers.sp + 65535) % 65536)
  let c := writeMem c c.registers.sp ((value >>> 8) % 256)
  let c := setSP c ((c.registers.sp + 65535) % 65536)
  writeMem c c.registers.sp (value &&& 0xFF)

/-- Officially unused base-page opcodes (the ones the dispatcher of gb.rs has
no arm for). -/
def unused_opcodes : List Nat :=
  [0xD3, 0xDB, 0xDD, 0xE3, 0xE4, 0xEB, 0xEC, 0xED, 0xF4, 0xFC, 0xFD]

/-- Dispatcher of the CB-prefixed page (gb.rs CPU::execute_cb_instruction).
Only opcodes 0x00 to 0x2F have arms in the source; the wildcard arm is fatal
and is modelled by none. -/
def execute_cb_instruction (c : CPU) (instruction : Nat) : Option (CPU × Nat) :=
  match instruction with
  | 0x00 =>
    let value := rlc (c.registers.b)
    let c := setB c value.value
    let c := set_flag c Flag.Z value.zero.get!
    let c := set_flag c Flag.N false
    let c := set_flag c Flag.H false
    let c := set_flag c Flag.C value.carry.get!
    some (c, 2)
  | 0x01 =>
    let value := rlc (c.registers.c)
    let c := setC c value.value
    let c := set_flag c Flag.Z value.zero.get!
    let c := set_flag c Flag.N false
    let c := set_flag c Flag.H false
    let c := set_flag c Flag.C value.carry.get!
    some (c, 2)
  | 0x02 =>
    let value := rlc (c.registers.d)
    let c := setD c value.value
    let c := set_flag c Flag.Z value.zero.get!
    let c := set_flag c Flag.N false
    let c := set_flag c Flag.H false
    let c := set_flag c Flag.C value.carry.get!
    some (c, 2)
  | 0x03 =>
    let value := rlc (c.registers.e)
    let c := setE c value.value
    let c := set_flag c Flag.Z value.zero.get!
    let c := set_flag c Flag.N false
    let c := set_flag c Flag.H false
    let c := set_flag c Flag.C value.carry.get!
    some (c, 2)
  | 0x04 =>
    let value := rlc (c.registers.h)
    let c := setH c value.value
    let c := set_flag c Flag.Z value.zero.get!
    let c := set_flag c Flag.N false
    let c := set_flag c Flag.H false
    let c := set_flag c Flag.C value.carry.get!
    some (c, 2)
  | 0x05 =>
    let value := rlc (c.registers.l)
    let c := setL c value.value
    let c := set_flag c Flag.Z value.zero.get!
    let c := set_flag c Flag.N false
    let c := set_flag c Flag.H false
    let c := set_flag c Flag.C value.carry.get!
    some (c, 2)
  | 0x06 =>
    let value := rlc (c.memory.data (get_hl c))
    let c := writeMem c (get_hl c) value.value
    let c := set_flag c Flag.Z value.zero.get!
    let c := set_flag c Flag.N false
    let c := set_flag c Flag.H false
    let c := set_flag c Flag.C value.carry.get!
    some (c, 4)
  | 0x07 =>
    let value := rlc (c.registers.a)
    let c := setA c value.value
    let c := set_flag c Flag.Z value.zero.get!
    let c := set_flag c Flag.N false
    let c := set_flag c Flag.H false
    let c := set_flag c Flag.C value.carry.get!
    some (c, 2)
  | 0x08 =>
    let value := rrc (c.registers.b)
    let c := setB c value.value
    let c := set_flag c Flag.Z value.zero.get!
    let c := set_flag c Flag.N false
    let c := set_flag c Flag.H false
    let c := set_flag c Flag.C value.carry.get!
    some (c, 2)
  | 0x09 =>
    let value := rrc (c.registers.c)
    let c := setC c value.value
    let c := set_flag c Flag.Z value.zero.get!
    let c := set_flag c Flag.N false
    let c := set_flag c Flag.H false
    let c := set_flag c Flag.C value.carry.get!
    some (c, 2)
  | 0x0A =>
    let value := rrc (c.registers.d)
    let c := setD c value.value
    let c := set_flag c Flag.Z value.zero.get!
    let c := set_flag c Flag.N false
    let c := set_flag c Flag.H false
    let c := set_flag c Flag.C value.carry.get!
    some (c, 2)
  | 0x0B =>
    let value := rrc (c.registers.e)
    let c := setE c value.value
    let c := set_flag c Flag.Z value.zero.get!
    let c := set_flag c Flag.N false
    let c := set_flag c Flag.H false
    let c := set_flag c Flag.C value.carry.get!
    some (c, 2)
  | 0x0C =>
    let value := rrc (c.registers.e)
    let c := setH c value.value
    let c := set_flag c Flag.Z value.zero.get!
    let c := set_flag c Flag.N false
    let c := set_flag c Flag.H false
    let c := set_flag c Flag.C value.carry.get!
    some (c, 2)
  | 0x0D =>
    let value := rrc (c.registers.h)
    let c := setE c value.value
    let c := set_flag c Flag.Z value.zero.get!
    let c := set_flag c Flag.N false
    let c := set_flag c Flag.H false
    let c := set_flag c Flag.C value.carry.get!
    some (c, 2)
  | 0x0E =>
    let value := rrc (c.memory.data (get_hl c))
    let c := writeMem c (get_hl c) value.value
    let c := set_flag c Flag.Z value.zero.get!
    let c := set_flag c Flag.N false
    let c := set_flag c Flag.H false
    let c := set_flag c Flag.C value.carry.get!
    some (c, 4)
  | 0x0F =>
    let value := rrc (c.registers.a)
    let c := setA c value.value
    let c := set_flag c Flag.Z value.zero.get!
    let c := set_flag c Flag.N false
    let c := set_flag c Flag.H false
    let c := set_flag c Flag.C value.carry.get!
    some (c, 2)
  | 0x10 =>
    let value := rl (c.registers.b) c.registers.f
    let c := setB c value.value
    let c := set_flag c Flag.Z value.zero.get!
    let c := set_flag c Flag.N false
    let c := set_flag c Flag.H false
    let c := set_flag c Flag.C value.carry.get!
    some (c, 2)
  | 0x11 =>
    let value := rl (c.registers.c) c.registers.f
    let c := setC c value.value
    let c := set_flag c Flag.Z value.zero.get!
    let c := set_flag c Flag.N false
    let c := set_flag c Flag.H false
    let c := set_flag c Flag.C value.carry.get!
    some (c, 2)
  | 0x12 =>
    let value := rl (c.registers.d) c.registers.f
    let c := setD c value.value
    let c := set_flag c Flag.Z value.zero.get!
    let c := set_flag c Flag.N false
    let c := set_flag c Flag.H false
    let c := set_flag c Flag.C value.carry.get!
    some (c, 2)
  | 0x13 =>
    let value := rl (c.registers.e) c.registers.f
    let c := setE c value.value
    let c := set_flag c Flag.Z value.zero.get!
    let c := set_flag c Flag.N false
    let c := set_flag c Flag.H false
    let c := set_flag c Flag.C value.carry.get!
    some (c, 2)
  | 0x14 =>
    let value := rl (c.registers.h) c.registers.f
    let c := setH c value.value
    let c := set_flag c Flag.Z value.zero.get!
    let c := set_flag c Flag.N false
    let c := set_flag c Flag.H false
    let c := set_flag c Flag.C value.carry.get!
    some (c, 2)
  | 0x15 =>
    let value := rl (c.registers.l) c.registers.f
    let c := setL c value.value
    let c := set_flag c Flag.Z value.zero.get!
    let c := set_flag c Flag.N false
    let c := set_flag c Flag.H false
    let c := set_flag c Flag.C value.carry.get!
    some (c, 2)
  | 0x16 =>
    let value := rl (c.memory.data (get_hl c)) c.registers.f
    let c := writeMem c (get_hl c) value.value
    let c := set_flag c Flag.Z value.zero.get!
    let c := set_flag c Flag.N false
    let c := set_flag c Flag.H false
    let c := set_flag c Flag.C value.carry.get!
    some (c, 4)
  | 0x17 =>
    let value := rl (c.registers.a) c.registers.f
    let c := setA c value.value
    let c := set_flag c Flag.Z value.zero.get!
    let c := set_flag c Flag.N false
    let c := set_flag c Flag.H false
    let c := set_flag c Flag.C value.carry.get!
    some (c, 2)
  | 0x18 =>
    let value := rr (c.registers.b) c.registers.f
    let c := setB c value.value
    let c := set_flag c Flag.Z value.zero.get!
    let c := set_flag c Flag.N false
    let c := set_flag c Flag.H false
    let c := set_flag c Flag.C value.carry.get!
    some (c, 2)
  | 0x19 =>
    let value := rr (c.registers.c) c.registers.f
    let c := setC c value.value
    let c := set_flag c Flag.Z value.zero.get!
    let c := set_flag c Flag.N false
    let c := set_flag c Flag.H false
    let c := set_flag c Flag.C value.carry.get!
    some (c, 2)
  | 0x1A =>
    let value := rr (c.registers.d) c.registers.f
    let c := setD c value.value
    let c := set_flag c Flag.Z value.zero.get!
    let c := set_flag c Flag.N false
    let c := set_flag c Flag.H false
    let c := set_flag c Flag.C value.carry.get!
    some (c, 2)
  | 0x1B =>
    let value := rr (c.registers.e) c.registers.f
    let c := setE c value.value
    let c := set_flag c Flag.Z value.zero.get!
    let c := set_flag c Flag.N false
    let c := set_flag c Flag.H false
    let c := set_flag c Flag.C value.carry.get!
    some (c, 2)
  | 0x1C =>
    let value := rr (c.registers.h) c.registers.f
    let c := setH c value.value
    let c := set_flag c Flag.Z value.zero.get!
    let c := set_flag c Flag.N false
    let c := set_flag c Flag.H false
    let c := set_flag c Flag.C value.carry.get!
    some (c, 2)
  | 0x1D =>
    let value := rr (c.registers.l) c.registers.f
    let c := setL c value.value
    let c := set_flag c Flag.Z value.zero.get!
    let c := set_flag c Flag.N false
    let c := set_flag c Flag.H false
    let c := set_flag c Flag.C value.carry.get!
    some (c, 2)
  | 0x1E =>
    let value := rr (c.memory.data (get_hl c)) c.registers.f
    let c := writeMem c (get_hl c) value.value
    let c := set_flag c Flag.Z value.zero.get!
    let c := set_flag c Flag.N false
    let c := set_flag c Flag.H false
    let c := set_flag c Flag.C value.carry.get!
    some (c, 4)
  | 0x1F =>
    let value := rr (c.registers.a) c.registers.f
    let c := setA c value.value
    let c := set_flag c Flag.Z value.zero.get!
    let c := set_flag c Flag.N false
    let c := set_flag c Flag.H false
    let c := set_flag c Flag.C value.carry.get!
    some (c, 2)
  | 0x20 =>
    let value := sla (c.registers.b)
    let c := setB c value.value
    let c := set_flag c Flag.Z value.zero.get!
    let c := set_flag c Flag.N false
    let c := set_flag c Flag.H false
    let c := set_flag c Flag.C value.carry.get!
    some (c, 2)
  | 0x21 =>
    let value := sla (c.registers.c)
    let c := setC c value.value
    let c := set_flag c Flag.Z value.zero.get!
    let c := set_flag c Flag.N false
    let c := set_flag c Flag.H false
    let c := set_flag c Flag.C value.carry.get!
    some (c, 2)
  | 0x22 =>
    let value := sla (c.registers.d)
    let c := setD c value.value
    let c := set_flag c Flag.Z value.zero.get!
    let c := set_flag c Flag.N false
    let c := set_flag c Flag.H false
    let c := set_flag c Flag.C value.carry.get!
    some (c, 2)
  | 0x23 =>
    let value := sla (c.registers.e)
    let c := setE c value.value
    let c := set_flag c Flag.Z value.zero.get!
    let c := set_flag c Flag.N false
    let c := set_flag c Flag.H false
    let c := set_flag c Flag.C value.carry.get!
    some (c, 2)
  | 0x24 =>
    let value := sla (c.registers.h)
    let c := setH c value.value
    let c := set_flag c Flag.Z value.zero.get!
    let c := set_flag c Flag.N false
    let c := set_flag c Flag.H false
    let c := set_flag c Flag.C value.carry.get!
    some (c, 2)
  | 0x25 =>
    let value := sla (c.registers.l)
    let c := setL c value.value
    let c := set_flag c Flag.Z value.zero.get!
    let c := set_flag c Flag.N false
    let c := set_flag c Flag.H false
    let c := set_flag c Flag.C value.carry.get!
    some (c, 2)
  | 0x26 =>
    let value := sla (c.memory.data (get_hl c))
    let c := writeMem c (get_hl c) value.value
    let c := set_flag c Flag.Z value.zero.get!
    let c := set_flag c Flag.N false
    let c := set_flag c Flag.H false
    let c := set_flag c Flag.C value.carry.get!
    some (c, 4)
  | 0x27 =>
    let value := sla (c.registers.a)
    let c := setA c value.value
    let c := set_flag c Flag.Z value.zero.get!
    let c := set_flag c Flag.N false
    let c := set_flag c Flag.H false
    let c := set_flag c Flag.C value.carry.get!
    some (c, 2)
  | 0x28 =>
    let value := sra (c.registers.b)
    let c := setB c value.value
    let c := set_flag c Flag.Z value.zero.get!
    let c := set_flag c Flag.N false
    let c := set_flag c Flag.H false
    let c := set_flag c Flag.C value.carry.get!
    some (c, 2)
  | 0x29 =>
    let value := sra (c.registers.c)
    let c := setC c value.value
    let c := set_flag c Flag.Z value.zero.get!
    let c := set_flag c Flag.N false
    let c := set_flag c Flag.H false
    let c := set_flag c Flag.C value.carry.get!
    some (c, 2)
  | 0x2A =>
    let value := sra (c.registers.d)
    let c := setD c value.value
    let c := set_flag c Flag.Z value.zero.get!
    let c := set_flag c Flag.N false
    let c := set_flag c Flag.H false
    let c := set_flag c Flag.C value.carry.get!
    some (c, 2)
  | 0x2B =>
    let value := sra (c.registers.e)
    let c := setE c value.value
    let c := set_flag c Flag.Z value.zero.get!
    let c := set_flag c Flag.N false
    let c := set_flag c Flag.H false
    let c := set_flag c Flag.C value.carry.get!
    some (c, 2)
  | 0x2C =>
    let value := sra (c.registers.h)
    let c := setH c value.value
    let c := set_flag c Flag.Z value.zero.get!
    let c := set_flag c Flag.N false
    let c := set_flag c Flag.H false
    let c := set_flag c Flag.C value.carry.get!
    some (c, 2)
  | 0x2D =>
    let value := sra (c.registers.l)
    let c := setL c value.value
    let c := set_flag c Flag.Z value.zero.get!
    let c := set_flag c Flag.N false
    let c := set_flag c Flag.H false
    let c := set_flag c Flag.C value.carry.get!
    some (c, 2)
  | 0x2E =>
    let value := sra (c.memory.data (get_hl c))
    let c := writeMem c (get_hl c) value.value
    let c := set_flag c Flag.Z value.zero.get!
    let c := set_flag c Flag.N false
    let c := set_flag c Flag.H false
    let c := set_flag c Flag.C value.carry.get!
    some (c, 4)
  | 0x2F =>
    let value := sra (c.registers.a)
    let c := setA c value.value
    let c := set_flag c Flag.Z value.zero.get!
    let c := set_flag c Flag.N false
    let c := set_flag c Flag.H false
    let c := set_flag c Flag.C value.carry.get!
    some (c, 2)
  | _ => none

set_option maxHeartbeats 1000000

/-- Arms 0x00 to 0x0F of the gb.rs CPU::execute match, on the low
nibble of the opcode. -/
def execute_g0 (lo : Nat) (c : CPU) : Option (CPU × Nat) :=
  match lo with
  | 0x0 =>
    some (c, 1)
  | 0x1 =>
    let i1 := next_instruction c
    let i2 := next_instruction i1.2
    some (set_bc i2.2 (i1.1 ||| (i2.1 <<< 8)), 3)
  | 0x2 =>
    some (writeMem c (get_bc c) c.registers.a, 2)
  | 0x3 =>
    some (set_bc c ((get_bc c + 1) % 65536), 2)
  | 0x4 =>
    let result := inc c.registers.b
    let c := setB c result.value
    let c := set_flag c Flag.Z result.zero.get!
    let c := set_flag c Flag.N result.add_sub.get!
    let c := set_flag c Flag.H result.half_carry.get!
    some (c, 1)
  | 0x5 =>
    let result := dec c.registers.b
    let c := setB c result.value
    let c := set_flag c Flag.Z result.zero.get!
    let c := set_flag c Flag.N result.add_sub.get!
    let c := set_flag c Flag.H result.half_carry.get!
    some (c, 1)
  | 0x6 =>
    let i := next_instruction c
    some (setB i.2 i.1, 2)
  | 0x7 =>
    let carry := c.registers.a >>> 7
    let c := set_flag c Flag.C (carry == 1)
    let c := setA c (((c.registers.a <<< 1) % 256) ||| carry)
    let c := set_flag c Flag.Z false
    let c := set_flag c Flag.N false
    let c := set_flag c Flag.H false
    some (c, 1)
  | 0x8 =>
    let i1 := next_instruction c
    let i2 := next_instruction i1.2
    let address := i1.1 ||| (i2.1 <<< 8)
    let c := writeMem i2.2 address (i2.2.registers.sp % 256)
    let c := writeMem c ((address + 1) % 65536) ((c.registers.sp >>> 8) % 256)
    some (c, 5)
  | 0x9 =>
    let result := (get_hl c + get_bc c) % 65536
    let c := set_hl c result
    let c := set_flag c Flag.N false
    let c := set_flag c Flag.H (decide ((get_hl c &&& 0xFFF) + (get_bc c &&& 0xFFF) > 0xFFF))
    let c := set_flag c Flag.C (decide (get_hl c + get_bc c > 0xFFFF))
    some (c, 2)
  | 0xA =>
    some (setA c (c.memory.data (get_bc c)), 2)
  | 0xB =>
    some (set_bc c ((get_bc c + 65535) % 65536), 2)
  | 0xC =>
    let result := inc c.registers.c
    let c := setC c result.value
    let c := set_flag c Flag.Z result.zero.get!
    let c := set_flag c Flag.N result.add_sub.get!
    let c := set_flag c Flag.H result.half_carry.get!
    some (c, 1)
  | 0xD =>
    let result := dec c.registers.c
    let c := setC c result.value
    let c := set_flag c Flag.Z result.zero.get!
    let c := set_flag c Flag.N result.add_sub.get!
    let c := set_flag c Flag.H result.half_carry.get!
    some (c, 1)
  | 0xE =>
    let i := next_instruction c
    some (setC i.2 i.1, 2)
  | 0xF =>
    let carry := c.registers.a &&& 1
    let c := set_flag c Flag.C (carry == 1)
    let c := setA c ((c.registers.a >>> 1) ||| (carry <<< 7))
    let c := set_flag c Flag.Z false
    let c := set_flag c Flag.N false
    let c := set_flag c Flag.H false
    some (c, 1)
  | _ => none

/-- Arms 0x10 to 0x1F of the gb.rs CPU::execute match, on the low
nibble of the opcode. -/
def execute_g1 (lo : Nat) (c : CPU) : Option (CPU × Nat) :=
  match lo with
  | 0x0 =>
    some (c, 1)
  | 0x1 =>
    let i1 := next_instruction c
    let i2 := next_instruction i1.2
    some (set_de i2.2 (i1.1 ||| (i2.1 <<< 8)), 3)
  | 0x2 =>
    some (writeMem c (get_de c) c.registers.a, 2)
  | 0x3 =>
    some (set_de c ((get_de c + 1) % 65536), 2)
  | 0x4 =>
    let result := inc c.registers.d
    let c := setD c result.value
    let c := set_flag c Flag.Z result.zero.get!
    let c := set_flag c Flag.N result.add_sub.get!
    let c := set_flag c Flag.H result.half_carry.get!
    some (c, 1)
  | 0x5 =>
    let result := dec c.registers.d
    let c := setD c result.value
    let c := set_flag c Flag.Z result.zero.get!
    let c := set_flag c Flag.N result.add_sub.get!
    let c := set_flag c Flag.H result.half_carry.get!
    some (c, 1)
  | 0x6 =>
    let i := next_instruction c
    some (setD i.2 i.1, 2)
  | 0x7 =>
    let carry := c.registers.a >>> 7
    let c := setA c (((c.registers.a <<< 1) % 256) ||| (if get_flag c Flag.C then 1 else 0))
    let c := set_flag c Flag.C (carry == 1)
    let c := set_flag c Flag.Z false
    let c := set_flag c Flag.N false
    let c := set_flag c Flag.H false
    some (c, 1)
  | 0x8 =>
    let i := next_instruction c
    some (setPC i.2 ((i.2.registers.pc + i.1) % 65536), 3)
  | 0x9 =>
    let result := (get_hl c + get_de c) % 65536
    let c := set_hl c result
    let c := set_flag c Flag.N false
    let c := set_flag c Flag.H (decide ((get_hl c &&& 0xFFF) + (get_de c &&& 0xFFF) > 0xFFF))
    let c := set_flag c Flag.C (decide (get_hl c + get_de c > 0xFFFF))
    some (c, 2)
  | 0xA =>
    some (setA c (c.memory.data (get_de c)), 2)
  | 0xB =>
    some (set_de c ((get_de c + 65535) % 65536), 2)
  | 0xC =>
    let result := inc c.registers.e
    let c := setE c result.value
    let c := set_flag c Flag.Z result.zero.get!
    let c := set_flag c Flag.N result.add_sub.get!
    let c := set_flag c Flag.H result.half_carry.get!
    some (c, 1)
  | 0xD =>
    let result := dec c.registers.e
    let c := setE c result.value
    let c := set_flag c Flag.Z result.zero.get!
    let c := set_flag c Flag.N result.add_sub.get!
    let c := set_flag c Flag.H result.half_carry.get!
    some (c, 1)
  | 0xE =>
    let i := next_instruction c
    some (setE i.2 i.1, 2)
  | 0xF =>
    let carry := c.registers.a &&& 1
    let c := setA c ((c.registers.a >>> 1) ||| ((if get_flag c Flag.C then 1 else 0) <<< 7))
    let c := set_flag c Flag.C (carry == 1)
    let c := set_flag c Flag.Z false
    let c := set_flag c Flag.N false
    let c := set_flag c Flag.H false
    some (c, 1)
  | _ => none

/-- Arms 0x20 to 0x2F of the gb.rs CPU::execute match, on the low
nibble of the opcode. -/
def execute_g2 (lo : Nat) (c : CPU) : Option (CPU × Nat) :=
  match lo with
  | 0x0 =>
    let i := next_instruction c
    if !(get_flag i.2 Flag.Z) then
      some (setPC i.2 ((i.2.registers.pc + i.1) % 65536), 3)
    else
      some (i.2, 2)
  | 0x1 =>
    let i1 := next_instruction c
    let i2 := next_instruction i1.2
    some (set_hl i2.2 (i1.1 ||| (i2.1 <<< 8)), 3)
  | 0x2 =>
    let c := writeMem c (get_hl c) c.registers.a
    let c := set_hl c ((get_hl c + 1) % 65536)
    some (c, 2)
  | 0x3 =>
    some (set_hl c ((get_hl c + 1) % 65536), 2)
  | 0x4 =>
    let result := inc c.registers.h
    let c := setH c result.value
    let c := set_flag c Flag.Z result.zero.get!
    let c := set_flag c Flag.N result.add_sub.get!
    let c := set_flag c Flag.H result.half_carry.get!
    some (c, 1)
  | 0x5 =>
    let result := dec c.registers.h
    let c := setH c result.value
    let c := set_flag c Flag.Z result.zero.get!
    let c := set_flag c Flag.N result.add_sub.get!
    let c := set_flag c Flag.H result.half_carry.get!
    some (c, 1)
  | 0x6 =>
    let i := next_instruction c
    some (setH i.2 i.1, 2)
  | 0x7 =>
    let a := c.registers.a
    let adjust1 := if get_flag c Flag.H || (!(get_flag c Flag.N) && decide (a &&& 0xF > 9)) then 0x06 else 0x00
    let cond2 := get_flag c Flag.C || (!(get_flag c Flag.N) && decide (a > 0x99))
    let adjust2 := if cond2 then adjust1 ||| 0x60 else adjust1
    let c := if cond2 then set_flag c Flag.C true else c
    let a2 := if get_flag c Flag.N then (a + 256 - adjust2 % 256) % 256 else (a + adjust2) % 256
    let c := set_flag c Flag.Z (a2 == 0)
    let c := set_flag c Flag.H false
    some (setA c a2, 1)
  | 0x8 =>
    let i := next_instruction c
    if get_flag i.2 Flag.Z then
      some (setPC i.2 ((i.2.registers.pc + i.1) % 65536), 3)
    else
      some (i.2, 2)
  | 0x9 =>
    let result := (get_hl c + get_hl c) % 65536
    let c := set_hl c result
    let c := set_flag c Flag.N false
    let c := set_flag c Flag.H (decide ((get_hl c &&& 0xFFF) + (get_hl c &&& 0xFFF) > 0xFFF))
    let c := set_flag c Flag.C (decide (get_hl c + get_hl c > 0xFFFF))
    some (c, 2)
  | 0xA =>
    let c := setA c (c.memory.data (get_hl c))
    let c := set_hl c ((get_hl c + 1) % 65536)
    some (c, 2)
  | 0xB =>
    some (set_hl c ((get_hl c + 65535) % 65536), 2)
  | 0xC =>
    let result := inc c.registers.l
    let c := setL c result.value
    let c := set_flag c Flag.Z result.zero.get!
    let c := set_flag c Flag.N result.add_sub.get!
    let c := set_flag c Flag.H result.half_carry.get!
    some (c, 1)
  | 0xD =>
    let result := dec c.registers.l
    let c := setL c result.value
    let c := set_flag c Flag.Z result.zero.get!
    let c := set_flag c Flag.N result.add_sub.get!
    let c := set_flag c Flag.H result.half_carry.get!
    some (c, 1)
  | 0xE =>
    let i := next_instruction c
    some (setL i.2 i.1, 2)
  | 0xF =>
    let c := setA c (0xFF ^^^ c.registers.a)
    let c := set_flag c Flag.N true
    let c := set_flag c Flag.H true
    some (c, 1)
  | _ => none

/-- Arms 0x30 to 0x3F of the gb.rs CPU::execute match, on the low
nibble of the opcode. -/
def execute_g3 (lo : Nat) (c : CPU) : Option (CPU × Nat) :=
  match lo with
  | 0x0 =>
    let i := next_instruction c
    if !(get_flag i.2 Flag.C) then
      some (setPC i.2 ((i.2.registers.pc + i.1) % 65536), 3)
    else
      some (i.2, 2)
  | 0x1 =>
    let i1 := next_instruction c
    let i2 := next_instruction i1.2
    some (setSP i2.2 (i1.1 ||| (i2.1 <<< 8)), 3)
  | 0x2 =>
    let c := writeMem c (get_hl c) c.registers.a
    let c := set_hl c ((get_hl c + 65535) % 65536)
    some (c, 2)
  | 0x3 =>
    some (setSP c ((c.registers.sp + 1) % 65536), 2)
  | 0x4 =>
    let result := inc (c.memory.data (get_hl c))
    let c := writeMem c (get_hl c) result.value
    let c := set_flag c Flag.Z result.zero.get!
    let c := set_flag c Flag.N result.add_sub.get!
    let c := set_flag c Flag.H result.half_carry.get!
    some (c, 3)
  | 0x5 =>
    let result := dec (c.memory.data (get_hl c))
    let c := writeMem c (get_hl c) result.value
    let c := set_flag c Flag.Z result.zero.get!
    let c := set_flag c Flag.N result.add_sub.get!
    let c := set_flag c Flag.H result.half_carry.get!
    some (c, 3)
  | 0x6 =>
    let i := next_instruction c
    some (writeMem i.2 (get_hl i.2) i.1, 3)
  | 0x7 =>
    let c := set_flag c Flag.N false
    let c := set_flag c Flag.H false
    let c := set_flag c Flag.C true
    some (c, 1)
  | 0x8 =>
    let i := next_instruction c
    if get_flag i.2 Flag.C then
      some (setPC i.2 ((i.2.registers.pc + i.1) % 65536), 3)
    else
      some (i.2, 2)
  | 0x9 =>
    let result := (get_hl c + c.registers.sp) % 65536
    let c := set_hl c result
    let c := set_flag c Flag.N false
    let c := set_flag c Flag.H (decide ((get_hl c &&& 0xFFF) + (c.registers.sp &&& 0xFFF) > 0xFFF))
    let c := set_flag c Flag.C (decide (get_hl c + c.registers.sp > 0xFFFF))
    some (c, 2)
  | 0xA =>
    let c := setA c (c.memory.data (get_hl c))
    let c := set_hl c ((get_hl c + 65535) % 65536)
    some (c, 2)
  | 0xB =>
    some (setSP c ((c.registers.sp + 65535) % 65536), 2)
  | 0xC =>
    let result := inc c.registers.a
    let c := setA c result.value
    let c := set_flag c Flag.Z result.zero.get!
    let c := set_flag c Flag.N result.add_sub.get!
    let c := set_flag c Flag.H result.half_carry.get!
    some (c, 1)
  | 0xD =>
    let result := dec c.registers.a
    let c := setA c result.value
    let c := set_flag c Flag.Z result.zero.get!
    let c := set_flag c Flag.N result.add_sub.get!
    let c := set_flag c Flag.H result.half_carry.get!
    some (c, 1)
  | 0xE =>
    let i := next_instruction c
    some (setA i.2 i.1, 2)
  | 0xF =>
    let c0 := get_flag c Flag.C
    let c := set_flag c Flag.N false
    let c := set_flag c Flag.H false
    let c := set_flag c Flag.C (!c0)
    some (c, 1)
  | _ => none

/-- Arms 0x40 to 0x4F of the gb.rs CPU::execute match, on the low
nibble of the opcode. -/
def execute_g4 (lo : Nat) (c : CPU) : Option (CPU × Nat) :=
  match lo with
  | 0x0 =>
    some (setB c (c.registers.b), 1)
  | 0x1 =>
    some (setB c (c.registers.c), 1)
  | 0x2 =>
    some (setB c (c.registers.d), 1)
  | 0x3 =>
    some (setB c (c.registers.e), 1)
  | 0x4 =>
    some (setB c (c.registers.h), 1)
  | 0x5 =>
    some (setB c (c.registers.l), 1)
  | 0x6 =>
    some (setB c (c.memory.data (get_hl c)), 2)
  | 0x7 =>
    some (setB c (c.registers.a), 1)
  | 0x8 =>
    some (setC c (c.registers.b), 1)
  | 0x9 =>
    some (setC c (c.registers.c), 1)
  | 0xA =>
    some (setC c (c.registers.d), 1)
  | 0xB =>
    some (setC c (c.registers.e), 1)
  | 0xC =>
    some (setC c (c.registers.h), 1)
  | 0xD =>
    some (setC c (c.registers.l), 1)
  | 0xE =>
    some (setC c (c.memory.data (get_hl c)), 2)
  | 0xF =>
    some (setC c (c.registers.a), 1)
  | _ => none

/-- Arms 0x50 to 0x5F of the gb.rs CPU::execute match, on the low
nibble of the opcode. -/
def execute_g5 (lo : Nat) (c : CPU) : Option (CPU × Nat) :=
  match lo with
  | 0x0 =>
    some (setD c (c.registers.b), 1)
  | 0x1 =>
    some (setD c (c.registers.c), 1)
  | 0x2 =>
    some (setD c (c.registers.d), 1)
  | 0x3 =>
    some (setD c (c.registers.e), 1)
  | 0x4 =>
    some (setD c (c.registers.h), 1)
  | 0x5 =>
    some (setD c (c.registers.l), 1)
  | 0x6 =>
    some (setD c (c.memory.data (get_hl c)), 2)
  | 0x7 =>
    some (setD c (c.registers.a), 1)
  | 0x8 =>
    some (setE c (c.registers.b), 1)
  | 0x9 =>
    some (setE c (c.registers.c), 1)
  | 0xA =>
    some (setE c (c.registers.d), 1)
  | 0xB =>
    some (setE c (c.registers.e), 1)
  | 0xC =>
    some (setE c (c.registers.h), 1)
  | 0xD =>
    some (setE c (c.registers.l), 1)
  | 0xE =>
    some (setE c (c.memory.data (get_hl c)), 2)
  | 0xF =>
    some (setE c (c.registers.a), 1)
  | _ => none

/-- Arms 0x60 to 0x6F of the gb.rs CPU::execute match, on the low
nibble of the opcode. -/
def execute_g6 (lo : Nat) (c : CPU) : Option (CPU × Nat) :=
  match lo with
  | 0x0 =>
    some (setH c (c.registers.b), 1)
  | 0x1 =>
    some (setH c (c.registers.c), 1)
  | 0x2 =>
    some (setH c (c.registers.d), 1)
  | 0x3 =>
    some (setH c (c.registers.e), 1)
  | 0x4 =>
    some (setH c (c.registers.h), 1)
  | 0x5 =>
    some (setH c (c.registers.l), 1)
  | 0x6 =>
    some (setH c (c.memory.data (get_hl c)), 2)
  | 0x7 =>
    some (setH c (c.registers.a), 1)
  | 0x8 =>
    some (setL c (c.registers.b), 1)
  | 0x9 =>
    some (setL c (c.registers.c), 1)
  | 0xA =>
    some (setL c (c.registers.d), 1)
  | 0xB =>
    some (setL c (c.registers.e), 1)
  | 0xC =>
    some (setL c (c.registers.h), 1)
  | 0xD =>
    some (setL c (c.registers.l), 1)
  | 0xE =>
    some (setL c (c.memory.data (get_hl c)), 2)
  | 0xF =>
    some (setL c (c.registers.a), 1)
  | _ => none

/-- Arms 0x70 to 0x7F of the gb.rs CPU::execute match, on the low
nibble of the opcode. -/
def execute_g7 (lo : Nat) (c : CPU) : Option (CPU × Nat) :=
  match lo with
  | 0x0 =>
    some (writeMem c (get_hl c) (c.registers.b), 2)
  | 0x1 =>
    some (writeMem c (get_hl c) (c.registers.c), 2)
  | 0x2 =>
    some (writeMem c (get_hl c) (c.registers.d), 2)
  | 0x3 =>
    some (writeMem c (get_hl c) (c.registers.e), 2)
  | 0x4 =>
    some (writeMem c (get_hl c) (c.registers.h), 2)
  | 0x5 =>
    some (writeMem c (get_hl c) (c.registers.l), 2)
  | 0x6 =>
    some (c, 1)
  | 0x7 =>
    some (writeMem c (get_hl c) (c.registers.a), 2)
  | 0x8 =>
    some (setA c (c.registers.b), 1)
  | 0x9 =>
    some (setA c (c.registers.c), 1)
  | 0xA =>
    some (setA c (c.registers.d), 1)
  | 0xB =>
    some (setA c (c.registers.e), 1)
  | 0xC =>
    some (setA c (c.registers.h), 1)
  | 0xD =>
    some (setA c (c.registers.l), 1)
  | 0xE =>
    some (setA c (c.memory.data (get_hl c)), 1)
  | 0xF =>
    some (setA c (c.registers.a), 1)
  | _ => none

/-- Arms 0x80 to 0x8F of the gb.rs CPU::execute match, on the low
nibble of the opcode. -/
def execute_g8 (lo : Nat) (c : CPU) : Option (CPU × Nat) :=
  match lo with
  | 0x0 =>
    let result := add c.registers.a (c.registers.b)
    let c := setA c result.value
    let c := set_flag c Flag.Z result.zero.get!
    let c := set_flag c Flag.N false
    let c := set_flag c Flag.H result.half_carry.get!
    let c := set_flag c Flag.C result.carry.get!
    some (c, 1)
  | 0x1 =>
    let result := add c.registers.a (c.registers.c)
    let c := setA c result.value
    let c := set_flag c Flag.Z result.zero.get!
    let c := set_flag c Flag.N false
    let c := set_flag c Flag.H result.half_carry.get!
    let c := set_flag c Flag.C result.carry.get!
    some (c, 1)
  | 0x2 =>
    let result := add c.registers.a (c.registers.d)
    let c := setA c result.value
    let c := set_flag c Flag.Z result.zero.get!
    let c := set_flag c Flag.N false
    let c := set_flag c Flag.H result.half_carry.get!
    let c := set_flag c Flag.C result.carry.get!
    some (c, 1)
  | 0x3 =>
    let result := add c.registers.a (c.registers.e)
    let c := setA c result.value
    let c := set_flag c Flag.Z result.zero.get!
    let c := set_flag c Flag.N false
    let c := set_flag c Flag.H result.half_carry.get!
    let c := set_flag c Flag.C result.carry.get!
    some (c, 1)
  | 0x4 =>
    let result := add c.registers.a (c.registers.h)
    let c := setA c result.value
    let c := set_flag c Flag.Z result.zero.get!
    let c := set_flag c Flag.N false
    let c := set_flag c Flag.H result.half_carry.get!
    let c := set_flag c Flag.C result.carry.get!
    some (c, 1)
  | 0x5 =>
    let result := add c.registers.a (c.registers.l)
    let c := setA c result.value
    let c := set_flag c Flag.Z result.zero.get!
    let c := set_flag c Flag.N false
    let c := set_flag c Flag.H result.half_carry.get!
    let c := set_flag c Flag.C result.carry.get!
    some (c, 1)
  | 0x6 =>
    let result := add c.registers.a (c.memory.data (get_hl c))
    let c := setA c result.value
    let c := set_flag c Flag.Z result.zero.get!
    let c := set_flag c Flag.N false
    let c := set_flag c Flag.H result.half_carry.get!
    let c := set_flag c Flag.C result.carry.get!
    some (c, 2)
  | 0x7 =>
    let result := add c.registers.a (c.registers.a)
    let c := setA c result.value
    let c := set_flag c Flag.Z result.zero.get!
    let c := set_flag c Flag.N false
    let c := set_flag c Flag.H result.half_carry.get!
    let c := set_flag c Flag.C result.carry.get!
    some (c, 1)
  | 0x8 =>
    let result := adc c.registers.a (c.registers.b) (get_flag c Flag.C)
    let c := setA c result.value
    let c := set_flag c Flag.Z result.zero.get!
    let c := set_flag c Flag.N false
    let c := set_flag c Flag.H result.half_carry.get!
    let c := set_flag c Flag.C result.carry.get!
    some (c, 1)
  | 0x9 =>
    let result := adc c.registers.a (c.registers.c) (get_flag c Flag.C)
    let c := setA c result.value
    let c := set_flag c Flag.Z result.zero.get!
    let c := set_flag c Flag.N false
    let c := set_flag c Flag.H result.half_carry.get!
    let c := set_flag c Flag.C result.carry.get!
    some (c, 1)
  | 0xA =>
    let result := adc c.registers.a (c.registers.d) (get_flag c Flag.C)
    let c := setA c result.value
    let c := set_flag c Flag.Z result.zero.get!
    let c := set_flag c Flag.N false
    let c := set_flag c Flag.H result.half_carry.get!
    let c := set_flag c Flag.C result.carry.get!
    some (c, 1)
  | 0xB =>
    let result := adc c.registers.a (c.registers.e) (get_flag c Flag.C)
    let c := setA c result.value
    let c := set_flag c Flag.Z result.zero.get!
    let c := set_flag c Flag.N false
    let c := set_flag c Flag.H result.half_carry.get!
    let c := set_flag c Flag.C result.carry.get!
    some (c, 1)
  | 0xC =>
    let result := adc c.registers.a (c.registers.h) (get_flag c Flag.C)
    let c := setA c result.value
    let c := set_flag c Flag.Z result.zero.get!
    let c := set_flag c Flag.N false
    let c := set_flag c Flag.H result.half_carry.get!
    let c := set_flag c Flag.C result.carry.get!
    some (c, 1)
  | 0xD =>
    let result := adc c.registers.a (c.registers.l) (get_flag c Flag.C)
    let c := setA c result.value
    let c := set_flag c Flag.Z result.zero.get!
    let c := set_flag c Flag.N false
    let c := set_flag c Flag.H result.half_carry.get!
    let c := set_flag c Flag.C result.carry.get!
    some (c, 1)
  | 0xE =>
    let result := adc c.registers.a (c.memory.data (get_hl c)) (get_flag c Flag.C)
    let c := setA c result.value
    let c := set_flag c Flag.Z result.zero.get!
    let c := set_flag c Flag.N false
    let c := set_flag c Flag.H result.half_carry.get!
    let c := set_flag c Flag.C result.carry.get!
    some (c, 2)
  | 0xF =>
    let result := adc c.registers.a (c.registers.a) (get_flag c Flag.C)
    let c := setA c result.value
    let c := set_flag c Flag.Z result.zero.get!
    let c := set_flag c Flag.N false
    let c := set_flag c Flag.H result.half_carry.get!
    let c := set_flag c Flag.C result.carry.get!
    some (c, 1)
  | _ => none

/-- Arms 0x90 to 0x9F of the gb.rs CPU::execute match, on the low
nibble of the opcode. -/
def execute_g9 (lo : Nat) (c : CPU) : Option (CPU × Nat) :=
  match lo with
  | 0x0 =>
    let result := sub c.registers.a (c.registers.b)
    let c := setA c result.value
    let c := set_flag c Flag.Z result.zero.get!
    let c := set_flag c Flag.N true
    let c := set_flag c Flag.H result.half_carry.get!
    let c := set_flag c Flag.C result.carry.get!
    some (c, 1)
  | 0x1 =>
    let result := sub c.registers.a (c.registers.c)
    let c := setA c result.value
    let c := set_flag c Flag.Z result.zero.get!
    let c := set_flag c Flag.N true
    let c := set_flag c Flag.H result.half_carry.get!
    let c := set_flag c Flag.C result.carry.get!
    some (c, 1)
  | 0x2 =>
    let result := sub c.registers.a (c.registers.d)
    let c := setA c result.value
    let c := set_flag c Flag.Z result.zero.get!
    let c := set_flag c Flag.N true
    let c := set_flag c Flag.H result.half_carry.get!
    let c := set_flag c Flag.C result.carry.get!
    some (c, 1)
  | 0x3 =>
    let result := sub c.registers.a (c.registers.e)
    let c := setA c result.value
    let c := set_flag c Flag.Z result.zero.get!
    let c := set_flag c Flag.N true
    let c := set_flag c Flag.H result.half_carry.get!
    let c := set_flag c Flag.C result.carry.get!
    some (c, 1)
  | 0x4 =>
    let result := sub c.registers.a (c.registers.h)
    let c := setA c result.value
    let c := set_flag c Flag.Z result.zero.get!
    let c := set_flag c Flag.N true
    let c := set_flag c Flag.H result.half_carry.get!
    let c := set_flag c Flag.C result.carry.get!
    some (c, 1)
  | 0x5 =>
    let result := sub c.registers.a (c.registers.l)
    let c := setA c result.value
    let c := set_flag c Flag.Z result.zero.get!
    let c := set_flag c Flag.N true
    let c := set_flag c Flag.H result.half_carry.get!
    let c := set_flag c Flag.C result.carry.get!
    some (c, 1)
  | 0x6 =>
    let result := sub c.registers.a (c.memory.data (get_hl c))
    let c := setA c result.value
    let c := set_flag c Flag.Z result.zero.get!
    let c := set_flag c Flag.N true
    let c := set_flag c Flag.H result.half_carry.get!
    let c := set_flag c Flag.C result.carry.get!
    some (c, 2)
  | 0x7 =>
    let result := sub c.registers.a (c.registers.a)
    let c := setA c result.value
    let c := set_flag c Flag.Z result.zero.get!
    let c := set_flag c Flag.N true
    let c := set_flag c Flag.H result.half_carry.get!
    let c := set_flag c Flag.C result.carry.get!
    some (c, 1)
  | 0x8 =>
    let result := sbc c.registers.a (c.registers.b) (get_flag c Flag.C)
    let c := setA c result.value
    let c := set_flag c Flag.Z result.zero.get!
    let c := set_flag c Flag.N true
    let c := set_flag c Flag.H result.half_carry.get!
    let c := set_flag c Flag.C result.carry.get!
    some (c, 1)
  | 0x9 =>
    let result := sbc c.registers.a (c.registers.c) (get_flag c Flag.C)
    let c := setA c result.value
    let c := set_flag c Flag.Z result.zero.get!
    let c := set_flag c Flag.N true
    let c := set_flag c Flag.H result.half_carry.get!
    let c := set_flag c Flag.C result.carry.get!
    some (c, 1)
  | 0xA =>
    let result := sbc c.registers.a (c.registers.d) (get_flag c Flag.C)
    let c := setA c result.value
    let c := set_flag c Flag.Z result.zero.get!
    let c := set_flag c Flag.N true
    let c := set_flag c Flag.H result.half_carry.get!
    let c := set_flag c Flag.C result.carry.get!
    some (c, 1)
  | 0xB =>
    let result := sbc c.registers.a (c.registers.e) (get_flag c Flag.C)
    let c := setA c result.value
    let c := set_flag c Flag.Z result.zero.get!
    let c := set_flag c Flag.N true
    let c := set_flag c Flag.H result.half_carry.get!
    let c := set_flag c Flag.C result.carry.get!
    some (c, 1)
  | 0xC =>
    let result := sbc c.registers.a (c.registers.h) (get_flag c Flag.C)
    let c := setA c result.value
    let c := set_flag c Flag.Z result.zero.get!
    let c := set_flag c Flag.N true
    let c := set_flag c Flag.H result.half_carry.get!
    let c := set_flag c Flag.C result.carry.get!
    some (c, 1)
  | 0xD =>
    let result := sbc c.registers.a (c.registers.l) (get_flag c Flag.C)
    let c := setA c result.value
    let c := set_flag c Flag.Z result.zero.get!
    let c := set_flag c Flag.N true
    let c := set_flag c Flag.H result.half_carry.get!
    let c := set_flag c Flag.C result.carry.get!
    some (c, 1)
  | 0xE =>
    let result := sbc c.registers.a (c.memory.data (get_hl c)) (get_flag c Flag.C)
    let c := setA c result.value
    let c := set_flag c Flag.Z result.zero.get!
    let c := set_flag c Flag.N true
    let c := set_flag c Flag.H result.half_carry.get!
    let c := set_flag c Flag.C result.carry.get!
    some (c, 2)
  | 0xF =>
    let result := sbc c.registers.a (c.registers.a) (get_flag c Flag.C)
    let c := setA c result.value
    let c := set_flag c Flag.Z result.zero.get!
    let c := set_flag c Flag.N true
    let c := set_flag c Flag.H result.half_carry.get!
    let c := set_flag c Flag.C result.carry.get!
    some (c, 1)
  | _ => none

/-- Arms 0xA0 to 0xAF of the gb.rs CPU::execute match, on the low
nibble of the opcode. -/
def execute_g10 (lo : Nat) (c : CPU) : Option (CPU × Nat) :=
  match lo with
  | 0x0 =>
    let result := and c.registers.a (c.registers.b)
    let c := setA c result.value
    let c := set_flag c Flag.Z result.zero.get!
    let c := set_flag c Flag.N false
    let c := set_flag c Flag.H true
    let c := set_flag c Flag.C false
    some (c, 1)
  | 0x1 =>
    let result := and c.registers.a (c.registers.c)
    let c := setA c result.value
    let c := set_flag c Flag.Z result.zero.get!
    let c := set_flag c Flag.N false
    let c := set_flag c Flag.H true
    let c := set_flag c Flag.C false
    some (c, 1)
  | 0x2 =>
    let result := and c.registers.a (c.registers.d)
    let c := setA c result.value
    let c := set_flag c Flag.Z result.zero.get!
    let c := set_flag c Flag.N false
    let c := set_flag c Flag.H true
    let c := set_flag c Flag.C false
    some (c, 1)
  | 0x3 =>
    let result := and c.registers.a (c.registers.e)
    let c := setA c result.value
    let c := set_flag c Flag.Z result.zero.get!
    let c := set_flag c Flag.N false
    let c := set_flag c Flag.H true
    let c := set_flag c Flag.C false
    some (c, 1)
  | 0x4 =>
    let result := and c.registers.a (c.registers.h)
    let c := setA c result.value
    let c := set_flag c Flag.Z result.zero.get!
    let c := set_flag c Flag.N false
    let c := set_flag c Flag.H true
    let c := set_flag c Flag.C false
    some (c, 1)
  | 0x5 =>
    let result := and c.registers.a (c.registers.l)
    let c := setA c result.value
    let c := set_flag c Flag.Z result.zero.get!
    let c := set_flag c Flag.N false
    let c := set_flag c Flag.H true
    let c := set_flag c Flag.C false
    some (c, 1)
  | 0x6 =>
    let result := and c.registers.a (c.memory.data (get_hl c))
    let c := setA c result.value
    let c := set_flag c Flag.Z result.zero.get!
    let c := set_flag c Flag.N false
    let c := set_flag c Flag.H true
    let c := set_flag c Flag.C false
    some (c, 2)
  | 0x7 =>
    let result := and c.registers.a (c.registers.a)
    let c := setA c result.value
    let c := set_flag c Flag.Z result.zero.get!
    let c := set_flag c Flag.N false
    let c := set_flag c Flag.H true
    let c := set_flag c Flag.C false
    some (c, 1)
  | 0x8 =>
    let result := xor c.registers.a (c.registers.b)
    let c := setA c result.value
    let c := set_flag c Flag.Z result.zero.get!
    let c := set_flag c Flag.N false
    let c := set_flag c Flag.H false
    let c := set_flag c Flag.C false
    some (c, 1)
  | 0x9 =>
    let result := xor c.registers.a (c.registers.c)
    let c := setA c result.value
    let c := set_flag c Flag.Z result.zero.get!
    let c := set_flag c Flag.N false
    let c := set_flag c Flag.H false
    let c := set_flag c Flag.C false
    some (c, 1)
  | 0xA =>
    let result := xor c.registers.a (c.registers.d)
    let c := setA c result.value
    let c := set_flag c Flag.Z result.zero.get!
    let c := set_flag c Flag.N false
    let c := set_flag c Flag.H false
    let c := set_flag c Flag.C false
    some (c, 1)
  | 0xB =>
    let result := xor c.registers.a (c.registers.e)
    let c := setA c result.value
    let c := set_flag c Flag.Z result.zero.get!
    let c := set_flag c Flag.N false
    let c := set_flag c Flag.H false
    let c := set_flag c Flag.C false
    some (c, 1)
  | 0xC =>
    let result := xor c.registers.a (c.registers.h)
    let c := setA c result.value
    let c := set_flag c Flag.Z result.zero.get!
    let c := set_flag c Flag.N false
    let c := set_flag c Flag.H false
    let c := set_flag c Flag.C false
    some (c, 1)
  | 0xD =>
    let result := xor c.registers.a (c.registers.l)
    let c := setA c result.value
    let c := set_flag c Flag.Z result.zero.get!
    let c := set_flag c Flag.N false
    let c := set_flag c Flag.H false
    let c := set_flag c Flag.C false
    some (c, 1)
  | 0xE =>
    let result := xor c.registers.a (c.memory.data (get_hl c))
    let c := setA c result.value
    let c := set_flag c Flag.Z result.zero.get!
    let c := set_flag c Flag.N false
    let c := set_flag c Flag.H false
    let c := set_flag c Flag.C false
    some (c, 2)
  | 0xF =>
    let result := xor c.registers.a (c.registers.a)
    let c := setA c result.value
    let c := set_flag c Flag.Z result.zero.get!
    let c := set_flag c Flag.N false
    let c := set_flag c Flag.H false
    let c := set_flag c Flag.C false
    some (c, 1)
  | _ => none

/-- Arms 0xB0 to 0xBF of the gb.rs CPU::execute match, on the low
nibble of the opcode. -/
def execute_g11 (lo : Nat) (c : CPU) : Option (CPU × Nat) :=
  match lo with
  | 0x0 =>
    let result := or c.registers.a (c.registers.b)
    let c := setA c result.value
    let c := set_flag c Flag.Z result.zero.get!
    let c := set_flag c Flag.N false
    let c := set_flag c Flag.H false
    let c := set_flag c Flag.C false
    some (c, 1)
  | 0x1 =>
    let result := or c.registers.a (c.registers.c)
    let c := setA c result.value
    let c := set_flag c Flag.Z result.zero.get!
    let c := set_flag c Flag.N false
    let c := set_flag c Flag.H false
    let c := set_flag c Flag.C false
    some (c, 1)
  | 0x2 =>
    let result := or c.registers.a (c.registers.d)
    let c := setA c result.value
    let c := set_flag c Flag.Z result.zero.get!
    let c := set_flag c Flag.N false
    let c := set_flag c Flag.H false
    let c := set_flag c Flag.C false
    some (c, 1)
  | 0x3 =>
    let result := or c.registers.a (c.registers.e)
    let c := setA c result.value
    let c := set_flag c Flag.Z result.zero.get!
    let c := set_flag c Flag.N false
    let c := set_flag c Flag.H false
    let c := set_flag c Flag.C false
    some (c, 1)
  | 0x4 =>
    let result := or c.registers.a (c.registers.h)
    let c := setA c result.value
    let c := set_flag c Flag.Z result.zero.get!
    let c := set_flag c Flag.N false
    let c := set_flag c Flag.H false
    let c := set_flag c Flag.C false
    some (c, 1)
  | 0x5 =>
    let result := or c.registers.a (c.registers.l)
    let c := setA c result.value
    let c := set_flag c Flag.Z result.zero.get!
    let c := set_flag c Flag.N false
    let c := set_flag c Flag.H false
    let c := set_flag c Flag.C false
    some (c, 1)
  | 0x6 =>
    let result := or c.registers.a (c.memory.data (get_hl c))
    let c := setA c result.value
    let c := set_flag c Flag.Z result.zero.get!
    let c := set_flag c Flag.N false
    let c := set_flag c Flag.H false
    let c := set_flag c Flag.C false
    some (c, 2)
  | 0x7 =>
    let result := or c.registers.a (c.registers.a)
    let c := setA c result.value
    let c := set_flag c Flag.Z result.zero.get!
    let c := set_flag c Flag.N false
    let c := set_flag c Flag.H false
    let c := set_flag c Flag.C false
    some (c, 1)
  | 0x8 =>
    let result := cp c.registers.a (c.registers.b)
    let c := set_flag c Flag.Z result.zero.get!
    let c := set_flag c Flag.N true
    let c := set_flag c Flag.H result.half_carry.get!
    let c := set_flag c Flag.C result.carry.get!
    some (c, 1)
  | 0x9 =>
    let result := cp c.registers.a (c.registers.c)
    let c := set_flag c Flag.Z result.zero.get!
    let c := set_flag c Flag.N true
    let c := set_flag c Flag.H result.half_carry.get!
    let c := set_flag c Flag.C result.carry.get!
    some (c, 1)
  | 0xA =>
    let result := cp c.registers.a (c.registers.d)
    let c := set_flag c Flag.Z result.zero.get!
    let c := set_flag c Flag.N true
    let c := set_flag c Flag.H result.half_carry.get!
    let c := set_flag c Flag.C result.carry.get!
    some (c, 1)
  | 0xB =>
    let result := cp c.registers.a (c.registers.e)
    let c := set_flag c Flag.Z result.zero.get!
    let c := set_flag c Flag.N true
    let c := set_flag c Flag.H result.half_carry.get!
    let c := set_flag c Flag.C result.carry.get!
    some (c, 1)
  | 0xC =>
    let result := cp c.registers.a (c.registers.h)
    let c := set_flag c Flag.Z result.zero.get!
    let c := set_flag c Flag.N true
    let c := set_flag c Flag.H result.half_carry.get!
    let c := set_flag c Flag.C result.carry.get!
    some (c, 1)
  | 0xD =>
    let result := cp c.registers.a (c.registers.l)
    let c := set_flag c Flag.Z result.zero.get!
    let c := set_flag c Flag.N true
    let c := set_flag c Flag.H result.half_carry.get!
    let c := set_flag c Flag.C result.carry.get!
    some (c, 1)
  | 0xE =>
    let result := cp c.registers.a (c.memory.data (get_hl c))
    let c := set_flag c Flag.Z result.zero.get!
    let c := set_flag c Flag.N true
    let c := set_flag c Flag.H result.half_carry.get!
    let c := set_flag c Flag.C result.carry.get!
    some (c, 2)
  | 0xF =>
    let result := cp c.registers.a (c.registers.a)
    let c := set_flag c Flag.Z result.zero.get!
    let c := set_flag c Flag.N true
    let c := set_flag c Flag.H result.half_carry.get!
    let c := set_flag c Flag.C result.carry.get!
    some (c, 1)
  | _ => none

/-- Arms 0xC0 to 0xCF of the gb.rs CPU::execute match, on the low
nibble of the opcode. -/
def execute_g12 (lo : Nat) (c : CPU) : Option (CPU × Nat) :=
  match lo with
  | 0x0 =>
    if !(get_flag c Flag.Z) then
      let p := pop c
      some (setPC p.2 p.1, 5)
    else
      some (c, 2)
  | 0x1 =>
    let p := pop c
    some (set_bc p.2 p.1, 3)
  | 0x2 =>
    let w := read_word c
    if !(get_flag w.2 Flag.Z) then
      some (setPC w.2 w.1, 4)
    else
      some (w.2, 3)
  | 0x3 =>
    let w := read_word c
    some (setPC w.2 w.1, 4)
  | 0x4 =>
    let w := read_word c
    if !(get_flag w.2 Flag.Z) then
      let c2 := push w.2 w.2.registers.pc
      some (setPC c2 w.1, 6)
    else
      some (w.2, 3)
  | 0x5 =>
    some (push c (get_bc c), 4)
  | 0x6 =>
    let value := add c.registers.a (c.memory.data c.registers.sp)
    let c := setA c value.value
    let c := set_flag c Flag.Z value.zero.get!
    let c := set_flag c Flag.N false
    let c := set_flag c Flag.H value.half_carry.get!
    let c := set_flag c Flag.C value.carry.get!
    some (c, 2)
  | 0x7 =>
    some (setPC (push c c.registers.pc) 0x00, 4)
  | 0x8 =>
    if get_flag c Flag.Z then
      let p := pop c
      some (setPC p.2 p.1, 5)
    else
      some (c, 2)
  | 0x9 =>
    let p := pop c
    some (setPC p.2 p.1, 4)
  | 0xA =>
    let w := read_word c
    if get_flag w.2 Flag.Z then
      some (setPC w.2 w.1, 4)
    else
      some (w.2, 3)
  | 0xB =>
    let i := next_instruction c
    execute_cb_instruction i.2 i.1
  | 0xC =>
    let w := read_word c
    if get_flag w.2 Flag.Z then
      let c2 := push w.2 w.2.registers.pc
      some (setPC c2 w.1, 6)
    else
      some (w.2, 3)
  | 0xD =>
    let w := read_word c
    let c2 := push w.2 w.2.registers.pc
    some (setPC c2 w.1, 6)
  | 0xE =>
    let value := adc c.registers.a (c.memory.data c.registers.sp) (get_flag c Flag.C)
    let c := setA c value.value
    let c := set_flag c Flag.Z value.zero.get!
    let c := set_flag c Flag.N false
    let c := set_flag c Flag.H value.half_carry.get!
    let c := set_flag c Flag.C value.carry.get!
    some (c, 2)
  | 0xF =>
    some (setPC (push c c.registers.pc) 0x08, 4)
  | _ => none

/-- Arms 0xD0 to 0xDF of the gb.rs CPU::execute match, on the low
nibble of the opcode. -/
def execute_g13 (lo : Nat) (c : CPU) : Option (CPU × Nat) :=
  match lo with
  | 0x0 =>
    if !(get_flag c Flag.C) then
      let p := pop c
      some (setPC p.2 p.1, 5)
    else
      some (c, 2)
  | 0x1 =>
    let p := pop c
    some (set_de p.2 p.1, 3)
  | 0x2 =>
    let w := read_word c
    if !(get_flag w.2 Flag.C) then
      some (setPC w.2 w.1, 4)
    else
      some (w.2, 3)
  | 0x4 =>
    let w := read_word c
    if !(get_flag w.2 Flag.C) then
      let c2 := push w.2 w.2.registers.pc
      some (setPC c2 w.1, 6)
    else
      some (w.2, 3)
  | 0x5 =>
    some (push c (get_de c), 4)
  | 0x6 =>
    let value := sub c.registers.a (c.memory.data c.registers.sp)
    let c := setA c value.value
    let c := set_flag c Flag.Z value.zero.get!
    let c := set_flag c Flag.N true
    let c := set_flag c Flag.H value.half_carry.get!
    let c := set_flag c Flag.C value.carry.get!
    some (c, 2)
  | 0x7 =>
    some (setPC (push c c.registers.pc) 0x10, 4)
  | 0x8 =>
    if get_flag c Flag.C then
      let p := pop c
      some (setPC p.2 p.1, 5)
    else
      some (c, 2)
  | 0x9 =>
    some (c, 4)
  | 0xA =>
    let w := read_word c
    if get_flag w.2 Flag.C then
      some (setPC w.2 w.1, 4)
    else
      some (w.2, 3)
  | 0xC =>
    let w := read_word c
    if get_flag w.2 Flag.C then
      let c2 := push w.2 w.2.registers.pc
      some (setPC c2 w.1, 6)
    else
      some (w.2, 3)
  | 0xE =>
    let value := sbc c.registers.a (c.memory.data c.registers.sp) (get_flag c Flag.C)
    let c := setA c value.value
    let c := set_flag c Flag.Z value.zero.get!
    let c := set_flag c Flag.N true
    let c := set_flag c Flag.H value.half_carry.get!
    let c := set_flag c Flag.C value.carry.get!
    some (c, 2)
  | 0xF =>
    some (setPC (push c c.registers.pc) 0x18, 4)
  | _ => none

/-- Arms 0xE0 to 0xEF of the gb.rs CPU::execute match, on the low
nibble of the opcode. -/
def execute_g14 (lo : Nat) (c : CPU) : Option (CPU × Nat) :=
  match lo with
  | 0x0 =>
    let i := next_instruction c
    some (writeMem i.2 (0xFF00 + i.1) i.2.registers.a, 3)
  | 0x1 =>
    let p := pop c
    some (set_hl p.2 p.1, 3)
  | 0x2 =>
    some (writeMem c (0xFF00 + c.registers.c) c.registers.a, 2)
  | 0x5 =>
    some (push c (get_hl c), 4)
  | 0x6 =>
    let value := and c.registers.a (c.memory.data c.registers.sp)
    let c := setA c value.value
    let c := set_flag c Flag.Z value.zero.get!
    let c := set_flag c Flag.N false
    let c := set_flag c Flag.H true
    let c := set_flag c Flag.C false
    some (c, 2)
  | 0x7 =>
    some (setPC (push c c.registers.pc) 0x20, 4)
  | 0x8 =>
    let value := c.memory.data c.registers.sp
    let result := add_sp c.registers.sp value
    let c := setSP c result.value
    let c := set_flag c Flag.Z result.zero.get!
    let c := set_flag c Flag.N false
    let c := set_flag c Flag.H result.half_carry.get!
    let c := set_flag c Flag.C result.carry.get!
    some (c, 4)
  | 0x9 =>
    some (setPC c (get_hl c), 1)
  | 0xA =>
    let w := read_word c
    some (writeMem w.2 w.1 w.2.registers.a, 4)
  | 0xE =>
    let value := xor c.registers.a (c.memory.data c.registers.sp)
    let c := setA c value.value
    let c := set_flag c Flag.Z value.zero.get!
    let c := set_flag c Flag.N false
    let c := set_flag c Flag.H false
    let c := set_flag c Flag.C false
    some (c, 2)
  | 0xF =>
    some (setPC (push c c.registers.pc) 0x28, 4)
  | _ => none

/-- Arms 0xF0 to 0xFF of the gb.rs CPU::execute match, on the low
nibble of the opcode. -/
def execute_g15 (lo : Nat) (c : CPU) : Option (CPU × Nat) :=
  match lo with
  | 0x0 =>
    let i := next_instruction c
    some (setA i.2 (i.2.memory.data (0xFF00 + i.1)), 3)
  | 0x1 =>
    let p := pop c
    some (set_af p.2 p.1, 3)
  | 0x2 =>
    some (setA c (c.memory.data (0xFF00 + c.registers.c)), 2)
  | 0x3 =>
    some (c, 1)
  | 0x5 =>
    some (push c (get_af c), 4)
  | 0x6 =>
    let value := or c.registers.a (c.memory.data c.registers.sp)
    let c := setA c value.value
    let c := set_flag c Flag.Z value.zero.get!
    let c := set_flag c Flag.N false
    let c := set_flag c Flag.H false
    let c := set_flag c Flag.C false
    some (c, 2)
  | 0x7 =>
    some (setPC (push c c.registers.pc) 0x30, 4)
  | 0x8 =>
    let value := c.memory.data c.registers.sp
    let result := add_sp c.registers.sp value
    let c := set_hl c result.value
    let c := set_flag c Flag.Z result.zero.get!
    let c := set_flag c Flag.N false
    let c := set_flag c Flag.H result.half_carry.get!
    let c := set_flag c Flag.C result.carry.get!
    some (c, 3)
  | 0x9 =>
    some (setSP c (get_hl c), 2)
  | 0xA =>
    let w := read_word c
    some (setA w.2 (w.2.memory.data w.1), 4)
  | 0xB =>
    some (c, 1)
  | 0xE =>
    let value := cp c.registers.a (c.memory.data c.registers.sp)
    let c := set_flag c Flag.Z value.zero.get!
    let c := set_flag c Flag.N true
    let c := set_flag c Flag.H value.half_carry.get!
    let c := set_flag c Flag.C value.carry.get!
    some (c, 2)
  | 0xF =>
    some (setPC (push c c.registers.pc) 0x38, 4)
  | _ => none

/-- Dispatcher of the base opcode page: the match body of gb.rs CPU::execute,
applied to the state after the opcode fetch.  The flat 256-arm match of the
source is organised here by high nibble into sixteen group functions to keep
the terms small; every arm body is the literal translation of the matching
source arm, in source order, and the wildcard arm of the source (fatal) is
modelled by none in the groups and in the dispatcher. -/
def execute_instruction (op : Nat) (c : CPU) : Option (CPU × Nat) :=
  match op >>> 4 with
  | 0x0 => execute_g0 (op &&& 0xF) c
  | 0x1 => execute_g1 (op &&& 0xF) c
  | 0x2 => execute_g2 (op &&& 0xF) c
  | 0x3 => execute_g3 (op &&& 0xF) c
  | 0x4 => execute_g4 (op &&& 0xF) c
  | 0x5 => execute_g5 (op &&& 0xF) c
  | 0x6 => execute_g6 (op &&& 0xF) c
  | 0x7 => execute_g7 (op &&& 0xF) c
  | 0x8 => execute_g8 (op &&& 0xF) c
  | 0x9 => execute_g9 (op &&& 0xF) c
  | 0xA => execute_g10 (op &&& 0xF) c
  | 0xB => execute_g11 (op &&& 0xF) c
  | 0xC => execute_g12 (op &&& 0xF) c
  | 0xD => execute_g13 (op &&& 0xF) c
  | 0xE => execute_g14 (op &&& 0xF) c
  | 0xF => execute_g15 (op &&& 0xF) c
  | _ => none

/-- Fetch one opcode and dispatch it (gb.rs CPU::execute). -/
def execute (c : CPU) : Option (CPU × Nat) :=
  let i := next_instruction c
  execute_instruction i.1 i.2

/-- Association-list memory image: every address not listed holds zero. -/
def memOf : List (Nat × Nat) → Nat → Nat
  | [], _ => 0
  | (a, v) :: rest, addr => if addr = a then v else memOf rest addr

/-- Modelled from the spec: the step loop driving execute is external to the
CPU core (spec section 2, the outer scheduler invokes step until a budget is
consumed), and the end-to-end scenarios of spec section 8 run until PC reaches
a sentinel halt.  This driver repeatedly executes instructions until the byte
at PC is the HALT opcode 0x76, with explicit fuel; it is absent from src. -/
def runUntilHalt : Nat → CPU → Option CPU
  | 0, _ => none
  | Nat.succ fuel, c =>
    if c.memory.data c.registers.pc = 0x76 then some c
    else
      match execute c with
      | some p => runUntilHalt fuel p.1
      | none => none

/-- Destination of an opcode in the 0x40-0x7F load block: one 8-bit register
other than F, or the memory byte at address HL. -/
inductive LdTarget where
  | rb
  | rc
  | rd
  | re
  | rh
  | rl
  | mhl
  | ra
deriving DecidableEq

/-- Write a value to a load-block destination. -/
def writeTarget (t : LdTarget) (v : Nat) (c : CPU) : CPU :=
  match t with
  | LdTarget.rb => setB c v
  | LdTarget.rc => setC c v
  | LdTarget.rd => setD c v
  | LdTarget.re => setE c v
  | LdTarget.rh => setH c v
  | LdTarget.rl => setL c v
  | LdTarget.mhl => writeMem c (get_hl c) v
  | LdTarget.ra => setA c v

/-- State after fetching the opcode byte: PC advanced by one, modulo 2^16. -/
def bumpPC (c : CPU) : CPU :=
  (next_instruction c).2

/-- Post-boot state whose program is POP AF (0xF1) with the byte 0x0F at the
stack pointer 0xFFFE and 0xAB above it. -/
def c2state : CPU :=
  { registers := Register.new,
    memory := ⟨memOf [(0x0100, 0xF1), (0xFFFE, 0x0F), (0xFFFF, 0xAB)]⟩ }

/-- Post-boot state whose program is LD A,0x45; ADD A,0x38; DAA; HALT placed
at 0x0100, all other memory zero. -/
def c3state : CPU :=
  { registers := Register.new,
    memory := ⟨memOf [(0x0100, 0x3E), (0x0101, 0x45), (0x0102, 0xC6),
                      (0x0103, 0x38), (0x0104, 0x27), (0x0105, 0x76)]⟩ }

/-- Post-boot state whose program is JR -2 (0x18 0xFE) placed at 0x0100. -/
def c5state : CPU :=
  { registers := Register.new, memory := ⟨memOf [(0x0100, 0x18), (0x0101, 0xFE)]⟩ }

/-- State with HL = 0x0FFF, BC = 0x0001, F = 0, about to execute
ADD HL,BC (0x09). -/
def c6state : CPU :=
  { registers := { Register.new with h := 0x0F, l := 0xFF, c := 0x01, f := 0x00 },
    memory := ⟨memOf [(0x0100, 0x09)]⟩ }

/-- State with H = 0x01, E = 0x02, L = 0x03, F = 0, used to probe the
CB-prefixed RRC H and RRC L arms. -/
def c9state : CPU :=
  { registers := { Register.new with h := 0x01, e := 0x02, l := 0x03, f := 0x00 },
    memory := Memory.new }

/-- Post-boot state whose program byte at PC is LD B,C (0x41). -/
def ld_witness_state : CPU :=
  { registers := Register.new, memory := ⟨memOf [(0x0100, 0x41)]⟩ }

/-- Helper: an if-then-else of two dispatched outcomes is dispatched. -/
theorem isSome_ite {α : Type} {P : Prop} [Decidable P] (x y : α) :
    (if P then some x else some y).isSome = true := by
  split <;> rfl

/-- Helper: every base-page opcode outside the unused set and other than the
CB prefix is dispatched to an effect and a cycle count. -/
theorem base_page_handled (op : Nat) (c : CPU) (h : op < 256)
    (hn : op ∉ unused_opcodes) (hcb : op ≠ 0xCB) :
    (execute_instruction op c).isSome = true := by
  interval_cases op <;>
    first
      | rfl
      | exact isSome_ite _ _
      | exact absurd rfl hcb
      | exact absurd (by decide) hn

/-- Helper: every opcode of the unused set hits the fatal wildcard arm. -/
theorem base_page_unused (op : Nat) (c : CPU) (h : op ∈ unused_opcodes) :
    execute_instruction op c = none := by
  fin_cases h <;> rfl

/-- Helper: every CB-prefixed opcode below 0x30 is dispatched. -/
theorem cb_page_handled (op : Nat) (c : CPU) (h : op < 0x30) :
    (execute_cb_instruction c op).isSome = true := by
  interval_cases op <;> rfl

/-- Helper: every CB-prefixed opcode at or above 0x30 hits the fatal wildcard
arm. -/
theorem cb_page_fatal (op : Nat) (c : CPU) (h : 0x30 ≤ op) :
    execute_cb_instruction c op = none := by
  unfold execute_cb_instruction
  split <;> first | rfl | omega

/-- C1: pushing 0x1234 from the post-boot state and popping returns 0x1234,
but SP ends at 0xFFFD, one below its pre-push value 0xFFFE: the source pop
reads the bytes at SP and SP+1 yet increments SP only once. -/
theorem push_pop_sp_bug :
    (pop (push CPU.new 0x1234)).1 = 0x1234 ∧
    CPU.new.registers.sp = 0xFFFE ∧
    (pop (push CPU.new 0x1234)).2.registers.sp = 0xFFFD :=
  ⟨by decide, by decide, by decide⟩

/-- C2: set_af stores its low byte into F without the 0xF0 mask, and executing
the single instruction POP AF (0xF1) with 0x0F at the stack top leaves
F = 0x0F, whose low nibble is not zero. -/
theorem f_low_nibble_bug :
    (set_af CPU.new 0x000F).registers.f = 0x0F ∧
    (execute c2state).map (fun p => p.1.registers.f) = some 0x0F :=
  ⟨by decide, by decide⟩

/-- C3: running the DAA-after-add program until HALT ends with A = 0x45 and
F = 0, not A = 0x83: the ADD A,d8 arm takes its operand from the byte at SP
(which is zero) instead of the immediate at PC, so the immediate 0x38 is then
executed as JR C and the DAA byte 0x27 is consumed as its offset. -/
theorem daa_scenario_bug :
    (runUntilHalt 8 c3state).map
        (fun c => (c.registers.a, c.registers.f, c.registers.pc)) =
      some (0x45, 0x00, 0x0105) := by
  decide

/-- C4: adc and sbc compute the half-carry from the two operands only, so
adc 0x0F 0x00 with carry-in true yields value 0x10 with H = false (the claim
requires H = true), and sbc 0x10 0x00 with borrow-in true yields value 0x0F
with H = false (the claim requires H = true). -/
theorem adc_sbc_half_carry_bug :
    (adc 0x0F 0x00 true).value = 0x10 ∧
    (adc 0x0F 0x00 true).half_carry = some false ∧
    (sbc 0x10 0x00 true).value = 0x0F ∧
    (sbc 0x10 0x00 true).half_carry = some false :=
  ⟨by decide, by decide, by decide, by decide⟩

/-- C5: executing JR with offset byte 0xFE at 0x0100 sets PC to 0x0200, not
back to 0x0100: the source zero-extends the offset instead of sign-extending
it. -/
theorem jr_unsigned_bug :
    (execute c5state).map (fun p => (p.1.registers.pc, p.2)) = some (0x0200, 3) := by
  decide

/-- C6: ADD HL,BC with HL = 0x0FFF and BC = 0x0001 produces HL = 0x1000 with
F = 0, so the half-carry flag is 0 where the claim requires 1: the source
computes H and C from the already-updated HL. -/
theorem add_hl_flag_order_bug :
    (execute c6state).map
        (fun p => (p.1.registers.h, p.1.registers.l, p.1.registers.f)) =
      some (0x10, 0x00, 0x00) := by
  decide

/-- C7: add_sp 0x0001 0xFF yields value 0x0100 with carry false, where the
claim requires the sign-extended result 0x0000 with carry true; the source
zero-extends the offset and takes the carry from 16-bit overflow. -/
theorem add_sp_extension_bug :
    (add_sp 0x0001 0xFF).value = 0x0100 ∧
    (add_sp 0x0001 0xFF).carry = some false ∧
    (add_sp 0x0001 0xFF).half_carry = some true :=
  ⟨by decide, by decide, by decide⟩

/-- C8 (amended): every base-page opcode outside the unused set other than the
CB prefix is dispatched without hitting the fatal arm, every unused opcode is
fatal, and of the CB-prefixed page only opcodes 0x00 to 0x2F are dispatched
while 0x30 to 0xFF are fatal. -/
theorem dispatch_coverage :
    (∀ (op : Nat) (c : CPU), op < 256 → op ∉ unused_opcodes → op ≠ 0xCB →
      (execute_instruction op c).isSome = true) ∧
    (∀ (op : Nat) (c : CPU), op ∈ unused_opcodes → execute_instruction op c = none) ∧
    (∀ (op : Nat) (c : CPU), op < 0x30 → (execute_cb_instruction c op).isSome = true) ∧
    (∀ (op : Nat) (c : CPU), 0x30 ≤ op → execute_cb_instruction c op = none) :=
  ⟨base_page_handled, base_page_unused, cb_page_handled, cb_page_fatal⟩

/-- C8 witness: the coverage theorem applied at the concrete opcodes 0x00,
0xD3, CB 0x00 and CB 0x30 in the post-boot state. -/
theorem dispatch_coverage_witness :
    (execute_instruction 0x00 CPU.new).isSome = true ∧
    execute_instruction 0xD3 CPU.new = none ∧
    (execute_cb_instruction CPU.new 0x00).isSome = true ∧
    execute_cb_instruction CPU.new 0x30 = none :=
  ⟨dispatch_coverage.1 0x00 CPU.new (by decide) (by decide) (by decide),
   dispatch_coverage.2.1 0xD3 CPU.new (by decide),
   dispatch_coverage.2.2.1 0x00 CPU.new (by decide),
   dispatch_coverage.2.2.2 0x30 CPU.new (by decide)⟩

/-- C8 counterexample: the CB-prefixed opcode 0x30 is not dispatched to an
effect, refuting the claim that every one of the 256 CB-prefixed opcodes is
dispatched without a fatal arm. -/
theorem cb_dispatch_counterexample :
    execute_cb_instruction CPU.new 0x30 = none :=
  rfl

/-- C9: from H = 0x01, E = 0x02, L = 0x03, the CB opcode 0x0C stores into H
the rotation of E (H becomes 0x01, not the rotation 0x80 of the old H), and
the CB opcode 0x0D stores into E the rotation of H, leaving L untouched
(L stays 0x03, E becomes 0x80). -/
theorem rrc_hl_swap_bug :
    (execute_cb_instruction c9state 0x0C).map
        (fun p => (p.1.registers.h, p.1.registers.e, p.1.registers.f)) =
      some (0x01, 0x02, 0x00) ∧
    (execute_cb_instruction c9state 0x0D).map
        (fun p => (p.1.registers.l, p.1.registers.e, p.1.registers.h)) =
      some (0x03, 0x80, 0x01) :=
  ⟨by decide, by decide⟩

/-- C10: executing any opcode of the 0x40-0x7F load block other than HALT
leaves F (hence all four flags) unchanged, advances PC by exactly one modulo
2^16, and modifies at most one further location, namely one 8-bit register
other than F, or the memory byte at address HL exactly for opcodes 0x70-0x75
and 0x77. -/
theorem ld_block_frame (op : Nat) (c : CPU)
    (hop : c.memory.data c.registers.pc = op)
    (h1 : 0x40 ≤ op) (h2 : op ≤ 0x7F) (h3 : op ≠ 0x76) :
    ∃ t v cyc, execute c = some (writeTarget t v (bumpPC c), cyc) ∧
      (writeTarget t v (bumpPC c)).registers.f = c.registers.f ∧
      (writeTarget t v (bumpPC c)).registers.pc = (c.registers.pc + 1) % 65536 ∧
      (t = LdTarget.mhl ↔ ((0x70 ≤ op ∧ op ≤ 0x75) ∨ op = 0x77)) := by
  have he : execute c = execute_instruction (c.memory.data c.registers.pc) (bumpPC c) := rfl
  rw [hop] at he
  interval_cases op
  · exact ⟨LdTarget.rb, _, _, he.trans rfl, rfl, rfl, by decide⟩
  · exact ⟨LdTarget.rb, _, _, he.trans rfl, rfl, rfl, by decide⟩
  · exact ⟨LdTarget.rb, _, _, he.trans rfl, rfl, rfl, by decide⟩
  · exact ⟨LdTarget.rb, _, _, he.trans rfl, rfl, rfl, by decide⟩
  · exact ⟨LdTarget.rb, _, _, he.trans rfl, rfl, rfl, by decide⟩
  · exact ⟨LdTarget.rb, _, _, he.trans rfl, rfl, rfl, by decide⟩
  · exact ⟨LdTarget.rb, _, _, he.trans rfl, rfl, rfl, by decide⟩
  · exact ⟨LdTarget.rb, _, _, he.trans rfl, rfl, rfl, by decide⟩
  · exact ⟨LdTarget.rc, _, _, he.trans rfl, rfl, rfl, by decide⟩
  · exact ⟨LdTarget.rc, _, _, he.trans rfl, rfl, rfl, by decide⟩
  · exact ⟨LdTarget.rc, _, _, he.trans rfl, rfl, rfl, by decide⟩
  · exact ⟨LdTarget.rc, _, _, he.trans rfl, rfl, rfl, by decide⟩
  · exact ⟨LdTarget.rc, _, _, he.trans rfl, rfl, rfl, by decide⟩
  · exact ⟨LdTarget.rc, _, _, he.trans rfl, rfl, rfl, by decide⟩
  · exact ⟨LdTarget.rc, _, _, he.trans rfl, rfl, rfl, by decide⟩
  · exact ⟨LdTarget.rc, _, _, he.trans rfl, rfl, rfl, by decide⟩
  · exact ⟨LdTarget.rd, _, _, he.trans rfl, rfl, rfl, by decide⟩
  · exact ⟨LdTarget.rd, _, _, he.trans rfl, rfl, rfl, by decide⟩
  · exact ⟨LdTarget.rd, _, _, he.trans rfl, rfl, rfl, by decide⟩
  · exact ⟨LdTarget.rd, _, _, he.trans rfl, rfl, rfl, by decide⟩
  · exact ⟨LdTarget.rd, _, _, he.trans rfl, rfl, rfl, by decide⟩
  · exact ⟨LdTarget.rd, _, _, he.trans rfl, rfl, rfl, by decide⟩
  · exact ⟨LdTarget.rd, _, _, he.trans rfl, rfl, rfl, by decide⟩
  · exact ⟨LdTarget.rd, _, _, he.trans rfl, rfl, rfl, by decide⟩
  · exact ⟨LdTarget.re, _, _, he.trans rfl, rfl, rfl, by decide⟩
  · exact ⟨LdTarget.re, _, _, he.trans rfl, rfl, rfl, by decide⟩
  · exact ⟨LdTarget.re, _, _, he.trans rfl, rfl, rfl, by decide⟩
  · exact ⟨LdTarget.re, _, _, he.trans rfl, rfl, rfl, by decide⟩
  · exact ⟨LdTarget.re, _, _, he.trans rfl, rfl, rfl, by decide⟩
  · exact ⟨LdTarget.re, _, _, he.trans rfl, rfl, rfl, by decide⟩
  · exact ⟨LdTarget.re, _, _, he.trans rfl, rfl, rfl, by decide⟩
  · exact ⟨LdTarget.re, _, _, he.trans rfl, rfl, rfl, by decide⟩
  · exact ⟨LdTarget.rh, _, _, he.trans rfl, rfl, rfl, by decide⟩
  · exact ⟨LdTarget.rh, _, _, he.trans rfl, rfl, rfl, by decide⟩
  · exact ⟨LdTarget.rh, _, _, he.trans rfl, rfl, rfl, by decide⟩
  · exact ⟨LdTarget.rh, _, _, he.trans rfl, rfl, rfl, by decide⟩
  · exact ⟨LdTarget.rh, _, _, he.trans rfl, rfl, rfl, by decide⟩
  · exact ⟨LdTarget.rh, _, _, he.trans rfl, rfl, rfl, by decide⟩
  · exact ⟨LdTarget.rh, _, _, he.trans rfl, rfl, rfl, by decide⟩
  · exact ⟨LdTarget.rh, _, _, he.trans rfl, rfl, rfl, by decide⟩
  · exact ⟨LdTarget.rl, _, _, he.trans rfl, rfl, rfl, by decide⟩
  · exact ⟨LdTarget.rl, _, _, he.trans rfl, rfl, rfl, by decide⟩
  · exact ⟨LdTarget.rl, _, _, he.trans rfl, rfl, rfl, by decide⟩
  · exact ⟨LdTarget.rl, _, _, he.trans rfl, rfl, rfl, by decide⟩
  · exact ⟨LdTarget.rl, _, _, he.trans rfl, rfl, rfl, by decide⟩
  · exact ⟨LdTarget.rl, _, _, he.trans rfl, rfl, rfl, by decide⟩
  · exact ⟨LdTarget.rl, _, _, he.trans rfl, rfl, rfl, by decide⟩
  · exact ⟨LdTarget.rl, _, _, he.trans rfl, rfl, rfl, by decide⟩
  · exact ⟨LdTarget.mhl, _, _, he.trans rfl, rfl, rfl, by decide⟩
  · exact ⟨LdTarget.mhl, _, _, he.trans rfl, rfl, rfl, by decide⟩
  · exact ⟨LdTarget.mhl, _, _, he.trans rfl, rfl, rfl, by decide⟩
  · exact ⟨LdTarget.mhl, _, _, he.trans rfl, rfl, rfl, by decide⟩
  · exact ⟨LdTarget.mhl, _, _, he.trans rfl, rfl, rfl, by decide⟩
  · exact ⟨LdTarget.mhl, _, _, he.trans rfl, rfl, rfl, by decide⟩
  · exact absurd rfl h3
  · exact ⟨LdTarget.mhl, _, _, he.trans rfl, rfl, rfl, by decide⟩
  · exact ⟨LdTarget.ra, _, _, he.trans rfl, rfl, rfl, by decide⟩
  · exact ⟨LdTarget.ra, _, _, he.trans rfl, rfl, rfl, by decide⟩
  · exact ⟨LdTarget.ra, _, _, he.trans rfl, rfl, rfl, by decide⟩
  · exact ⟨LdTarget.ra, _, _, he.trans rfl, rfl, rfl, by decide⟩
  · exact ⟨LdTarget.ra, _, _, he.trans rfl, rfl, rfl, by decide⟩
  · exact ⟨LdTarget.ra, _, _, he.trans rfl, rfl, rfl, by decide⟩
  · exact ⟨LdTarget.ra, _, _, he.trans rfl, rfl, rfl, by decide⟩
  · exact ⟨LdTarget.ra, _, _, he.trans rfl, rfl, rfl, by decide⟩

/-- C10 witness: the load-block frame theorem applied to the post-boot state
whose byte at PC is LD B,C (0x41). -/
theorem ld_block_frame_witness :
    ∃ t v cyc, execute ld_witness_state =
        some (writeTarget t v (bumpPC ld_witness_state), cyc) ∧
      (writeTarget t v (bumpPC ld_witness_state)).registers.f =
        ld_witness_state.registers.f ∧
      (writeTarget t v (bumpPC ld_witness_state)).registers.pc =
        (ld_witness_state.registers.pc + 1) % 65536 ∧
      (t = LdTarget.mhl ↔ ((0x70 ≤ 0x41 ∧ 0x41 ≤ 0x75) ∨ 0x41 = 0x77)) :=
  ld_block_frame 0x41 ld_witness_state (by decide) (by decide) (by decide) (by decide)

end GB
